import Mathlib

/-!
Shallow embedding of the GraphHopper route-finder scripts
(`graphhopper_app.py`, `graphhopper_enhanced.py`,
`graphhopper_route_finder_with_weather.py`, `graphhopper_map_ui.py`).

The HTTP layer is modelled as an oracle: each network call is represented
by an `HttpResult` value, `requestException` standing for any
`requests.exceptions.RequestException` (connection failure, non-2xx status
raised by `raise_for_status`, or a JSON decoding error raised by
`response.json()`, which modern `requests` raises as a subclass of
`RequestException`).  JSON payloads are modelled structurally: every field
the scripts read is an `Option` field, `none` standing for a missing key.
Python dictionary subscription `d["k"]` is `pyGetKey` (raising `KeyError`
when missing), list subscription `l[0]` is `pyIndex0` (raising
`IndexError` when empty), and `d.get("k", default)` is `Option.getD`.
Uncaught Python exceptions are the `Except.error` channel; a function that
returns normally yields `Except.ok`.  Python floats are idealised as `ℚ`.
-/

namespace GraphHopper

/-- The two Python exception classes the parsing code can raise. -/
inductive PyExc where
  | KeyError
  | IndexError
deriving DecidableEq, Repr

/-- Outcome of one `requests.get(...)` + `raise_for_status()` + `.json()`
sequence: either parsed JSON data, or a `requests.exceptions.RequestException`. -/
inductive HttpResult (α : Type) where
  | ok (data : α)
  | requestException
deriving DecidableEq, Repr

/-- Python `d["k"]`: raises `KeyError` when the key is absent. -/
def pyGetKey {α : Type} : Option α → Except PyExc α
  | some v => Except.ok v
  | none => Except.error PyExc.KeyError

/-- Python `l[0]`: raises `IndexError` on an empty list. -/
def pyIndex0 {α : Type} : List α → Except PyExc α
  | [] => Except.error PyExc.IndexError
  | x :: _ => Except.ok x

/-- Python `int(x)` on a float: truncation toward zero. -/
def pyInt (x : ℚ) : ℤ :=
  if 0 ≤ x then ⌊x⌋ else ⌈x⌉

/-- Python float floor division `x // y` (result is again a float). -/
def pyFloorDiv (x y : ℚ) : ℚ :=
  (⌊x / y⌋ : ℤ)

/-- Python float modulo `x % y = x - y * (x // y)`. -/
def pyMod (x y : ℚ) : ℚ :=
  x - y * ((⌊x / y⌋ : ℤ) : ℚ)

/-- Round to the nearest integer, ties to even — the rounding used by
Python's built-in `round`. -/
def pyRoundHalfEven (x : ℚ) : ℤ :=
  if x - ⌊x⌋ > 1 / 2 then ⌊x⌋ + 1
  else if x - ⌊x⌋ < 1 / 2 then ⌊x⌋
  else if Even ⌊x⌋ then ⌊x⌋ else ⌊x⌋ + 1

/-- Python `round(x, 1)`. -/
def pyRound1 (x : ℚ) : ℚ :=
  (pyRoundHalfEven (x * 10) : ℤ) / 10

/-- Python `str.capitalize()`: first character uppercased, the rest lowercased. -/
def pyCapitalize (s : String) : String :=
  match s.data with
  | [] => ""
  | c :: cs => String.mk (c.toUpper :: cs.map Char.toLower)

/-- Python `f"{x:.2f}"`: fixed-point rendering with two decimals
(round half to even, as for binary floats with exact halves). -/
def fmt2 (x : ℚ) : String :=
  let n := pyRoundHalfEven (x * 100)
  let sign := if n < 0 then "-" else ""
  let m := n.natAbs
  let frac := m % 100
  let fracStr := if frac < 10 then s!"0{frac}" else s!"{frac}"
  s!"{sign}{m / 100}.{fracStr}"

/-- The `"point"` object inside one geocoding hit. -/
structure GeoPoint where
  lat : Option ℚ
  lng : Option ℚ
deriving DecidableEq, Repr

/-- One element of the geocoding response's `"hits"` list. -/
structure Hit where
  point : Option GeoPoint
deriving DecidableEq, Repr

/-- The JSON body of a geocoding response. -/
structure GeocodeResponse where
  hits : Option (List Hit)
deriving DecidableEq, Repr

/-- `geocode_location` — identical in all four scripts
(`graphhopper_app.py` lines 16–41, `graphhopper_enhanced.py` lines 95–125,
`graphhopper_route_finder_with_weather.py` lines 22–41,
`graphhopper_map_ui.py` lines 19–49).  The whole body is inside
`try: ... except requests.exceptions.RequestException: return None`;
`data.get("hits", [])` defaults a missing key to `[]`; an empty `hits`
list prints a message and returns `None`; otherwise the coordinates of
`hits[0]` are returned.  `hits[0]["point"]["lat"/"lng"]` raise `KeyError`
when those keys are absent, and `KeyError` is not caught. -/
def geocode_location (resp : HttpResult GeocodeResponse) :
    Except PyExc (Option (ℚ × ℚ)) :=
  match resp with
  | HttpResult.requestException => Except.ok none
  | HttpResult.ok data =>
    match data.hits.getD [] with
    | [] => Except.ok none
    | h :: _ => do
      let p ← pyGetKey h.point
      let lat ← pyGetKey p.lat
      let lng ← pyGetKey p.lng
      Except.ok (some (lat, lng))

/-- `convert_distance` — identical in all four scripts
(`graphhopper_app.py` lines 82–89).  `1609.34` is the exact decimal
constant from the source. -/
def convert_distance (distance_m : ℚ) (unit : String) : ℚ × String :=
  if unit = "mi" then (distance_m / 1609.34, "miles")
  else (distance_m / 1000, "km")

/-- One element of a path's `"instructions"` list. -/
structure Instruction where
  text : Option String
  distance : Option ℚ
deriving DecidableEq, Repr

/-- One element of the routing response's `"paths"` list, as read by
`graphhopper_app.py` and `graphhopper_enhanced.py` (no geometry). -/
structure PathBasic where
  distance : Option ℚ
  time : Option ℚ
  instructions : Option (List Instruction)
deriving DecidableEq, Repr

/-- The JSON body of a routing response for the basic scripts. -/
structure RouteResponse where
  paths : Option (List PathBasic)
deriving DecidableEq, Repr

/-- The dictionary `get_route` returns in the basic scripts. -/
structure RouteData where
  distance : ℚ
  time : ℚ
  instructions : List Instruction
deriving DecidableEq, Repr

/-- The field extraction both basic `get_route` variants perform:
`path = data["paths"][0]`, then the dictionary literal
`{"distance": path["distance"], "time": path["time"],
"instructions": path.get("instructions", [])}`, in source order. -/
def parseRouteBasic (data : RouteResponse) : Except PyExc RouteData := do
  let paths ← pyGetKey data.paths
  let path ← pyIndex0 paths
  let dist ← pyGetKey path.distance
  let time ← pyGetKey path.time
  Except.ok { distance := dist, time := time,
              instructions := path.instructions.getD [] }

/-- The `"points"` object of a path (`{"coordinates": [...]}`);
coordinates are (longitude, latitude) pairs. -/
structure PointsField where
  coordinates : Option (List (ℚ × ℚ))
deriving DecidableEq, Repr

/-- One element of the routing response's `"paths"` list, as read by
`graphhopper_route_finder_with_weather.py` and `graphhopper_map_ui.py`
(with geometry). -/
structure PathFull where
  distance : Option ℚ
  time : Option ℚ
  points : Option PointsField
  instructions : Option (List Instruction)
deriving DecidableEq, Repr

/-- The JSON body of a routing response for the map-drawing scripts. -/
structure RouteResponseFull where
  paths : Option (List PathFull)
deriving DecidableEq, Repr

/-- The dictionary `get_route` returns in the map-drawing scripts. -/
structure RouteDataFull where
  distance : ℚ
  time : ℚ
  points : List (ℚ × ℚ)
  instructions : List Instruction
deriving DecidableEq, Repr

/-- Field extraction of the map-drawing `get_route` variants:
`path = data["paths"][0]`, then the dictionary literal with
`path["distance"]`, `path["time"]`, `path["points"]["coordinates"]`,
`path.get("instructions", [])`, in source order. -/
def parseRouteFull (data : RouteResponseFull) : Except PyExc RouteDataFull := do
  let paths ← pyGetKey data.paths
  let path ← pyIndex0 paths
  let dist ← pyGetKey path.distance
  let time ← pyGetKey path.time
  let pts ← pyGetKey path.points
  let coords ← pyGetKey pts.coordinates
  Except.ok { distance := dist, time := time, points := coords,
              instructions := path.instructions.getD [] }

/-- One outbound HTTP call of an orchestrator run, in the order performed;
`route` records the `vehicle` request parameter passed to the routing API. -/
inductive Call where
  | geocode
  | weather
  | route (vehicle : String)
deriving DecidableEq, Repr

/-- How an orchestrator run ends: early exit because coordinates could not
be retrieved, early exit because the route could not be fetched, or the
summary table (rows in display order). -/
inductive RunResult where
  | noCoords
  | noRoute
  | done (table : List (String × String))
deriving DecidableEq, Repr

namespace App

/-- `get_route` of `graphhopper_app.py` (lines 44–79).  The network call
sits in its own `try/except RequestException` returning `None`; the field
extraction sits in a second `try` whose
`except (KeyError, IndexError): return None` catches both parse
exceptions, so a malformed payload also yields `None`. -/
def get_route (resp : HttpResult RouteResponse) :
    Except PyExc (Option RouteData) :=
  match resp with
  | HttpResult.requestException => Except.ok none
  | HttpResult.ok data =>
    match parseRouteBasic data with
    | Except.ok r => Except.ok (some r)
    | Except.error _ => Except.ok none

/-- `convert_time` of `graphhopper_app.py` (lines 92–96), identical in
`graphhopper_enhanced.py` (lines 185–195) and `graphhopper_map_ui.py`
(lines 110–120): `round(ms / (1000 * 60), 1)`. -/
def convert_time (ms : ℚ) : ℚ :=
  pyRound1 (ms / (1000 * 60))

/-- `main` of `graphhopper_app.py` (lines 101–158), modelled through the
summary table; the remaining interaction (optional step-by-step table and
closing prints) performs no further network calls.  Inputs are the three
prompt answers, `unitChoice` standing for the value of
`input(...).lower().strip()` (the normalisation is applied to the input
expression itself in the source); the three `HttpResult` arguments are
the oracle responses of the up-to-three network calls, in order.  The
first component is the trace of HTTP calls actually made; the second is
the run's outcome, with `Except.error` standing for an uncaught
exception.  The unit choice is defaulted to `"km"` when not in
`["km", "mi"]`; a `None` from either geocode (`if not start_coords or not
end_coords`) exits before the routing call. -/
def main (start endLoc unitChoice : String)
    (geoS geoE : HttpResult GeocodeResponse)
    (routeResp : HttpResult RouteResponse) :
    List Call × Except PyExc RunResult :=
  let unit_choice :=
    if unitChoice = "km" ∨ unitChoice = "mi" then unitChoice else "km"
  match geocode_location geoS with
  | Except.error e => ([Call.geocode], Except.error e)
  | Except.ok sc =>
    match geocode_location geoE with
    | Except.error e => ([Call.geocode, Call.geocode], Except.error e)
    | Except.ok ec =>
      match sc, ec with
      | some _, some _ =>
        match get_route routeResp with
        | Except.error e =>
          ([Call.geocode, Call.geocode, Call.route "car"], Except.error e)
        | Except.ok none =>
          ([Call.geocode, Call.geocode, Call.route "car"],
           Except.ok RunResult.noRoute)
        | Except.ok (some route) =>
          let dv := convert_distance route.distance unit_choice
          let duration_min := convert_time route.time
          ([Call.geocode, Call.geocode, Call.route "car"],
           Except.ok (RunResult.done
             [("Start", start), ("End", endLoc),
              ("Distance", s!"{fmt2 dv.1} {dv.2}"),
              ("Estimated Time", s!"{duration_min} minutes")]))
      | _, _ => ([Call.geocode, Call.geocode], Except.ok RunResult.noCoords)

end App

namespace Enhanced

/-- `get_route` of `graphhopper_enhanced.py` (lines 128–166).  Request and
field extraction share one `try` block that catches only
`requests.exceptions.RequestException`, so a `KeyError`/`IndexError`
raised while reading `data["paths"][0]` propagates out uncaught. -/
def get_route (resp : HttpResult RouteResponse) :
    Except PyExc (Option RouteData) :=
  match resp with
  | HttpResult.requestException => Except.ok none
  | HttpResult.ok data => (parseRouteBasic data).map some

end Enhanced

namespace Weather

/-- `get_route` of `graphhopper_route_finder_with_weather.py`
(lines 70–96).  One `try` block catching only `RequestException`; parse
exceptions propagate uncaught.  The `vehicle` argument only feeds the
request parameters, which the oracle model absorbs. -/
def get_route (resp : HttpResult RouteResponseFull) :
    Except PyExc (Option RouteDataFull) :=
  match resp with
  | HttpResult.requestException => Except.ok none
  | HttpResult.ok data => (parseRouteFull data).map some

/-- `convert_time` of `graphhopper_route_finder_with_weather.py`
(lines 106–111): `minutes = ms / (1000 * 60)`;
`hours = int(minutes // 60)`; `mins = int(minutes % 60)`;
`f"{hours}h {mins}m" if hours else f"{mins} minutes"`. -/
def convert_time (ms : ℚ) : String :=
  let minutes := ms / (1000 * 60)
  let hours := pyInt (pyFloorDiv minutes 60)
  let mins := pyInt (pyMod minutes 60)
  if hours ≠ 0 then s!"{hours}h {mins}m" else s!"{mins} minutes"

/-- One element of the weather response's `"weather"` list. -/
structure WeatherItem where
  description : Option String
deriving DecidableEq, Repr

/-- The `"main"` object of the weather response. -/
structure MainField where
  temp : Option ℚ
deriving DecidableEq, Repr

/-- The `"wind"` object of the weather response. -/
structure WindField where
  speed : Option ℚ
deriving DecidableEq, Repr

/-- The JSON body of an OpenWeatherMap response. -/
structure WeatherResponse where
  weather : Option (List WeatherItem)
  main : Option MainField
  wind : Option WindField
deriving DecidableEq, Repr

/-- `get_weather` of `graphhopper_route_finder_with_weather.py`
(lines 44–67).  The `try` catches only
`requests.exceptions.RequestException`, returning the sentinel
`"Weather data unavailable"`.  The field reads
`data["weather"][0]["description"]`, `data["main"]["temp"]`,
`data["wind"]["speed"]` raise `KeyError`/`IndexError` when absent, and
those are not caught. -/
def get_weather (resp : HttpResult WeatherResponse) : Except PyExc String :=
  match resp with
  | HttpResult.requestException => Except.ok "Weather data unavailable"
  | HttpResult.ok data => do
    let ws ← pyGetKey data.weather
    let w0 ← pyIndex0 ws
    let desc ← pyGetKey w0.description
    let mainF ← pyGetKey data.main
    let temp ← pyGetKey mainF.temp
    let windF ← pyGetKey data.wind
    let speed ← pyGetKey windF.speed
    Except.ok s!"{pyCapitalize desc}, 🌡 {temp}°C, 💨 {speed} m/s"

/-- `vehicle_map.get(vehicle_choice, "car")` from `main`
(lines 161–162): the dictionary `{"1": "car", "2": "motorcycle",
"3": "foot"}` with `"car"` as the `.get` default. -/
def vehicle_map_get (choice : String) : String :=
  if choice = "1" then "car"
  else if choice = "2" then "motorcycle"
  else if choice = "3" then "foot"
  else "car"

/-- `main` of `graphhopper_route_finder_with_weather.py` (lines 150–227),
modelled through the summary table; the remaining interaction (optional
directions table, `create_map`, optional file save, closing prints)
performs no further network calls.  `vehicleChoice` stands for the value
of `input(...).strip()` and `unitChoice` for `input(...).lower().strip()`
(both normalisations are applied to the input expressions themselves in
the source); the vehicle choice is fed to `vehicle_map.get(·, "car")` and
the unit choice validated as in the basic script.  After both geocode
calls, a `None` from either exits before any weather or routing call;
otherwise weather is fetched for start then end, then the route with the
chosen vehicle. -/
def main (start endLoc vehicleChoice unitChoice : String)
    (geoS geoE : HttpResult GeocodeResponse)
    (weatherS weatherE : HttpResult WeatherResponse)
    (routeResp : HttpResult RouteResponseFull) :
    List Call × Except PyExc RunResult :=
  let vehicle := vehicle_map_get vehicleChoice
  let unit_choice :=
    if unitChoice = "km" ∨ unitChoice = "mi" then unitChoice else "km"
  match geocode_location geoS with
  | Except.error e => ([Call.geocode], Except.error e)
  | Except.ok sc =>
    match geocode_location geoE with
    | Except.error e => ([Call.geocode, Call.geocode], Except.error e)
    | Except.ok ec =>
      match sc, ec with
      | some _, some _ =>
        match get_weather weatherS with
        | Except.error e =>
          ([Call.geocode, Call.geocode, Call.weather], Except.error e)
        | Except.ok sw =>
          match get_weather weatherE with
          | Except.error e =>
            ([Call.geocode, Call.geocode, Call.weather, Call.weather],
             Except.error e)
          | Except.ok ew =>
            match get_route routeResp with
            | Except.error e =>
              ([Call.geocode, Call.geocode, Call.weather, Call.weather,
                Call.route vehicle], Except.error e)
            | Except.ok none =>
              ([Call.geocode, Call.geocode, Call.weather, Call.weather,
                Call.route vehicle], Except.ok RunResult.noRoute)
            | Except.ok (some route) =>
              let dv := convert_distance route.distance unit_choice
              let duration := convert_time route.time
              ([Call.geocode, Call.geocode, Call.weather, Call.weather,
                Call.route vehicle],
               Except.ok (RunResult.done
                 [("Start Location", start), ("Destination", endLoc),
                  ("Vehicle Type", pyCapitalize vehicle),
                  ("Total Distance", s!"{fmt2 dv.1} {dv.2}"),
                  ("Estimated Time", duration),
                  ("Start Weather", sw), ("End Weather", ew)]))
      | _, _ => ([Call.geocode, Call.geocode], Except.ok RunResult.noCoords)

end Weather

namespace MapUi

/-- `get_route` of `graphhopper_map_ui.py` (lines 52–91): textually the
same structure as the weather variant's, one `try` catching only
`RequestException`. -/
def get_route (resp : HttpResult RouteResponseFull) :
    Except PyExc (Option RouteDataFull) :=
  match resp with
  | HttpResult.requestException => Except.ok none
  | HttpResult.ok data => (parseRouteFull data).map some

end MapUi

/-- `pyInt` is the identity on integer-valued rationals. -/
theorem pyInt_intCast (n : ℤ) : pyInt (n : ℚ) = n := by
  unfold pyInt
  split <;> simp

/-- On nonnegative rationals, Python `int` truncation is the floor. -/
theorem pyInt_of_nonneg (x : ℚ) (h : 0 ≤ x) : pyInt x = ⌊x⌋ :=
  if_pos h

/-- Python float modulo by a positive modulus is nonnegative. -/
theorem pyMod_nonneg (x y : ℚ) (hy : 0 < y) : 0 ≤ pyMod x y := by
  unfold pyMod
  have h : ((⌊x / y⌋ : ℤ) : ℚ) ≤ x / y := Int.floor_le (x / y)
  have h2 : y * ((⌊x / y⌋ : ℤ) : ℚ) ≤ y * (x / y) :=
    mul_le_mul_of_nonneg_left h hy.le
  have h3 : y * (x / y) = x := by field_simp
  linarith

/-- C5: `convert_distance(m, "mi")` is exactly `(m / 1609.34, "miles")` and
`convert_distance(m, "km")` is exactly `(m / 1000, "km")` for every
`m ≥ 0`, and the miles divisor is the constant `1609.34`, not `1609.344`. -/
theorem convert_distance_uses_exact_divisors (m : ℚ) (h : 0 ≤ m) :
    convert_distance m "mi" = (m / 1609.34, "miles") ∧
    convert_distance m "km" = (m / 1000, "km") ∧
    (1609.34 : ℚ) ≠ 1609.344 :=
  ⟨rfl, rfl, by norm_num⟩

/-- Witness for C5 at `m = 5`. -/
theorem convert_distance_uses_exact_divisors_w :
    (0 : ℚ) ≤ 5 ∧
    (convert_distance 5 "mi" = (5 / 1609.34, "miles") ∧
     convert_distance 5 "km" = (5 / 1000, "km") ∧
     (1609.34 : ℚ) ≠ 1609.344) :=
  ⟨by norm_num, convert_distance_uses_exact_divisors 5 (by norm_num)⟩

/-- C9: multiplying the converted value back by the conversion divisor
(`1609.34` for miles, `1000` for kilometers) recovers the original meter
value exactly. -/
theorem convert_distance_inverse (m : ℚ) :
    (convert_distance m "mi").1 * 1609.34 = m ∧
    (convert_distance m "km").1 * 1000 = m := by
  constructor <;> simp [convert_distance] <;> field_simp

/-- C10: for every unit string other than `"mi"` — `"km"`, the empty
string, or anything else — `convert_distance` returns the kilometers
conversion `(m / 1000, "km")`; it is total, the km branch being the
default. -/
theorem convert_distance_defaults_to_km (m : ℚ) (unit : String)
    (h : unit ≠ "mi") :
    convert_distance m unit = (m / 1000, "km") := by
  simp [convert_distance, h]

/-- Witness for C10 at `m = 7`, `unit = ""`. -/
theorem convert_distance_defaults_to_km_w :
    ("" : String) ≠ "mi" ∧ convert_distance 7 "" = (7 / 1000, "km") :=
  ⟨by decide, convert_distance_defaults_to_km 7 "" (by decide)⟩

/-- C6: for every `t ≥ 0`, the basic variants' `convert_time` returns
`round(t / 60000, 1)`, and the weather variant's returns the
hours+minutes form with `hours = ⌊t/60000/60⌋` and
`minutes = (t/60000) mod 60` truncated to an integer (for nonnegative
values truncation coincides with the floor), the text omitting the hours
component exactly when `hours = 0`. -/
theorem convert_time_formulas (t : ℚ) (ht : 0 ≤ t) :
    App.convert_time t = pyRound1 (t / 60000) ∧
    Weather.convert_time t =
      (let hrs : ℤ := ⌊t / 60000 / 60⌋
       let mns : ℤ := ⌊pyMod (t / 60000) 60⌋
       if hrs ≠ 0 then s!"{hrs}h {mns}m" else s!"{mns} minutes") := by
  have h60 : t / (1000 * 60) = t / 60000 := by norm_num
  constructor
  · unfold App.convert_time
    rw [h60]
  · have hfd : pyInt (pyFloorDiv (t / (1000 * 60)) 60) = ⌊t / 60000 / 60⌋ := by
      unfold pyFloorDiv
      rw [pyInt_intCast, h60]
    have hmd : pyInt (pyMod (t / (1000 * 60)) 60) = ⌊pyMod (t / 60000) 60⌋ := by
      rw [h60, pyInt_of_nonneg _ (pyMod_nonneg _ _ (by norm_num))]
    simp only [Weather.convert_time, hfd, hmd]

/-- Witness for C6 at `t = 7500000` (125 minutes, rendered `"2h 5m"`). -/
theorem convert_time_formulas_w :
    (0 : ℚ) ≤ 7500000 ∧
    (App.convert_time 7500000 = pyRound1 ((7500000 : ℚ) / 60000) ∧
     Weather.convert_time 7500000 =
       (let hrs : ℤ := ⌊(7500000 : ℚ) / 60000 / 60⌋
        let mns : ℤ := ⌊pyMod ((7500000 : ℚ) / 60000) 60⌋
        if hrs ≠ 0 then s!"{hrs}h {mns}m" else s!"{mns} minutes")) :=
  ⟨by norm_num, convert_time_formulas 7500000 (by norm_num)⟩

/-- C8: on a geocoding response with at least one hit, the result is the
coordinates of the first hit, and on a routing response with at least one
path, `graphhopper_app.py`'s `get_route` builds its result from the first
path only — both independent of the remaining list elements. -/
theorem first_hit_first_path_selected
    (p : GeoPoint) (la ln : ℚ) (hp : p.lat = some la) (hq : p.lng = some ln)
    (rest : List Hit)
    (pb : PathBasic) (d t : ℚ) (hd : pb.distance = some d)
    (ht : pb.time = some t) (restP : List PathBasic) :
    geocode_location
        (HttpResult.ok { hits := some ({ point := some p } :: rest) })
      = Except.ok (some (la, ln)) ∧
    App.get_route (HttpResult.ok { paths := some (pb :: restP) })
      = Except.ok (some { distance := d, time := t,
                          instructions := pb.instructions.getD [] }) := by
  constructor
  · simp [geocode_location, pyGetKey, hp, hq, bind, Except.bind]
  · simp [App.get_route, parseRouteBasic, pyGetKey, pyIndex0, hd, ht, bind,
      Except.bind]

/-- Witness for C8 with one extra hit and one extra path in each list. -/
theorem first_hit_first_path_selected_w :
    ({ lat := some 51, lng := some 2 } : GeoPoint).lat = some 51 ∧
    ({ lat := some 51, lng := some 2 } : GeoPoint).lng = some 2 ∧
    ({ distance := some 10000, time := some 600000,
       instructions := some [] } : PathBasic).distance = some 10000 ∧
    ({ distance := some 10000, time := some 600000,
       instructions := some [] } : PathBasic).time = some 600000 ∧
    (geocode_location
        (HttpResult.ok { hits := some
                           ([{ point := some { lat := some 51, lng := some 2 } },
                             { point := some { lat := some 99, lng := some 99 } }]) })
      = Except.ok (some (51, 2)) ∧
    App.get_route (HttpResult.ok { paths := some
                                     ([{ distance := some 10000, time := some 600000,
                                         instructions := some [] },
                                       { distance := some 1, time := some 1,
                                         instructions := some [] }]) })
      = Except.ok (some { distance := 10000, time := 600000,
                          instructions :=
                            ({ distance := some 10000, time := some 600000,
                               instructions := some [] }
                              : PathBasic).instructions.getD [] })) :=
  ⟨rfl, rfl, rfl, rfl,
   first_hit_first_path_selected
     { lat := some 51, lng := some 2 } 51 2 rfl rfl
     [{ point := some { lat := some 99, lng := some 99 } }]
     { distance := some 10000, time := some 600000, instructions := some [] }
     10000 600000 rfl rfl
     [{ distance := some 1, time := some 1, instructions := some [] }]⟩

/-- C4 counterexample: a zero-hits response and a network failure yield the
very same return value `None` from `geocode_location`, so the two failure
kinds are not distinguishable from the returned value alone. -/
theorem geocode_failures_same_value_cx :
    geocode_location (HttpResult.ok { hits := some [] }) = Except.ok none ∧
    geocode_location
        (HttpResult.requestException : HttpResult GeocodeResponse)
      = Except.ok none ∧
    geocode_location (HttpResult.ok { hits := some [] })
      = geocode_location
          (HttpResult.requestException : HttpResult GeocodeResponse) :=
  ⟨rfl, rfl, rfl⟩

/-- C4 amended: `geocode_location` collapses both failure kinds — zero
matches (or a missing `hits` key) and a network failure — to the same
return value `None`; they differ only in the printed message. -/
theorem geocode_failures_collapse_to_none (data : GeocodeResponse)
    (h : data.hits = none ∨ data.hits = some []) :
    geocode_location (HttpResult.ok data) = Except.ok none ∧
    geocode_location
        (HttpResult.requestException : HttpResult GeocodeResponse)
      = Except.ok none := by
  rcases h with h | h <;> simp [geocode_location, h]

/-- Witness for C4 at a concrete zero-hits response. -/
theorem geocode_failures_collapse_to_none_w :
    (({ hits := some [] } : GeocodeResponse).hits = none ∨
     ({ hits := some [] } : GeocodeResponse).hits = some []) ∧
    (geocode_location (HttpResult.ok ({ hits := some [] } : GeocodeResponse))
       = Except.ok none ∧
     geocode_location
         (HttpResult.requestException : HttpResult GeocodeResponse)
       = Except.ok none) :=
  ⟨Or.inr rfl, geocode_failures_collapse_to_none { hits := some [] } (Or.inr rfl)⟩

/-- C1 counterexample: in `graphhopper_enhanced.py`, a routing response
with an empty `paths` list makes `get_route` raise an uncaught
`IndexError`, and one with `paths` missing an uncaught `KeyError` — it
does not return `None` in every script variant. -/
theorem get_route_empty_paths_crash_cx :
    Enhanced.get_route (HttpResult.ok { paths := some [] })
      = Except.error PyExc.IndexError ∧
    Enhanced.get_route (HttpResult.ok { paths := none })
      = Except.error PyExc.KeyError :=
  ⟨rfl, rfl⟩

/-- C1 amended: on a structurally unexpected routing payload (missing or
empty `paths`), only `graphhopper_app.py`'s `get_route` returns `None`;
the enhanced, weather and map-ui variants raise an uncaught
`KeyError`/`IndexError`. -/
theorem get_route_structural_payloads (data : RouteResponse)
    (dataF : RouteResponseFull)
    (h : data.paths = none ∨ data.paths = some [])
    (hF : dataF.paths = none ∨ dataF.paths = some []) :
    App.get_route (HttpResult.ok data) = Except.ok none ∧
    Enhanced.get_route (HttpResult.ok data) = Except.error
      (if data.paths = none then PyExc.KeyError else PyExc.IndexError) ∧
    Weather.get_route (HttpResult.ok dataF) = Except.error
      (if dataF.paths = none then PyExc.KeyError else PyExc.IndexError) ∧
    MapUi.get_route (HttpResult.ok dataF) = Except.error
      (if dataF.paths = none then PyExc.KeyError else PyExc.IndexError) := by
  rcases h with h | h <;> rcases hF with hF | hF <;>
    simp [App.get_route, Enhanced.get_route, Weather.get_route,
      MapUi.get_route, parseRouteBasic, parseRouteFull, pyGetKey, pyIndex0,
      h, hF, bind, Except.bind, Except.map]

/-- Witness for C1 with an empty basic `paths` list and a missing full
`paths` key. -/
theorem get_route_structural_payloads_w :
    (({ paths := some [] } : RouteResponse).paths = none ∨
     ({ paths := some [] } : RouteResponse).paths = some []) ∧
    (({ paths := none } : RouteResponseFull).paths = none ∨
     ({ paths := none } : RouteResponseFull).paths = some []) ∧
    (App.get_route (HttpResult.ok ({ paths := some [] } : RouteResponse))
       = Except.ok none ∧
     Enhanced.get_route (HttpResult.ok ({ paths := some [] } : RouteResponse))
       = Except.error
           (if ({ paths := some [] } : RouteResponse).paths = none
            then PyExc.KeyError else PyExc.IndexError) ∧
     Weather.get_route (HttpResult.ok ({ paths := none } : RouteResponseFull))
       = Except.error
           (if ({ paths := none } : RouteResponseFull).paths = none
            then PyExc.KeyError else PyExc.IndexError) ∧
     MapUi.get_route (HttpResult.ok ({ paths := none } : RouteResponseFull))
       = Except.error
           (if ({ paths := none } : RouteResponseFull).paths = none
            then PyExc.KeyError else PyExc.IndexError)) :=
  ⟨Or.inr rfl, Or.inl rfl,
   get_route_structural_payloads { paths := some [] } { paths := none }
     (Or.inr rfl) (Or.inl rfl)⟩

/-- C2 counterexample: a weather response whose `wind` field is missing
makes `get_weather` raise an uncaught `KeyError` instead of returning the
`"Weather data unavailable"` sentinel. -/
theorem get_weather_missing_field_crash_cx :
    Weather.get_weather (HttpResult.ok
        { weather := some [{ description := some "clear sky" }],
          main := some { temp := some 15 }, wind := none })
      = Except.error PyExc.KeyError :=
  rfl

/-- C2 amended: on a network failure (`RequestException`, which also
covers non-2xx statuses and JSON decoding errors) `get_weather` returns
the sentinel `"Weather data unavailable"` and the weather-variant `main`
still produces its summary table carrying the sentinel in both weather
fields; a response merely missing an expected field, however, raises an
uncaught `KeyError`/`IndexError` (see the counterexample). -/
theorem get_weather_network_failure_sentinel
    (start endLoc vc unitRaw : String)
    (geoS geoE : HttpResult GeocodeResponse) (sc ec : ℚ × ℚ)
    (hS : geocode_location geoS = Except.ok (some sc))
    (hE : geocode_location geoE = Except.ok (some ec))
    (routeResp : HttpResult RouteResponseFull) (rd : RouteDataFull)
    (hR : Weather.get_route routeResp = Except.ok (some rd)) :
    Weather.get_weather
        (HttpResult.requestException : HttpResult Weather.WeatherResponse)
      = Except.ok "Weather data unavailable" ∧
    ∃ table,
      (Weather.main start endLoc vc unitRaw geoS geoE
          HttpResult.requestException HttpResult.requestException
          routeResp).2
        = Except.ok (RunResult.done table) ∧
      ("Start Weather", "Weather data unavailable") ∈ table ∧
      ("End Weather", "Weather data unavailable") ∈ table := by
  refine ⟨rfl, ?_⟩
  simp only [Weather.main, hS, hE, hR, Weather.get_weather]
  exact ⟨_, rfl, by simp, by simp⟩

/-- Witness for C2 with concrete geocoding and routing responses and both
weather calls failing at the network level. -/
theorem get_weather_network_failure_sentinel_w :
    geocode_location (HttpResult.ok { hits := some [{ point := some { lat := some 51, lng := some 2 } }] })
      = Except.ok (some (51, 2)) ∧
    Weather.get_route (HttpResult.ok { paths := some [{ distance := some 10000, time := some 600000, points := some { coordinates := some [(0, 0)] }, instructions := some [] }] })
      = Except.ok (some { distance := 10000, time := 600000,
                          points := [(0, 0)], instructions := [] }) ∧
    (Weather.get_weather
        (HttpResult.requestException : HttpResult Weather.WeatherResponse)
      = Except.ok "Weather data unavailable" ∧
    ∃ table,
      (Weather.main "London" "Paris" "1" "km"
          (HttpResult.ok { hits := some [{ point := some { lat := some 51, lng := some 2 } }] })
          (HttpResult.ok { hits := some [{ point := some { lat := some 51, lng := some 2 } }] })
          HttpResult.requestException HttpResult.requestException
          (HttpResult.ok { paths := some [{ distance := some 10000, time := some 600000, points := some { coordinates := some [(0, 0)] }, instructions := some [] }] })).2
        = Except.ok (RunResult.done table) ∧
      ("Start Weather", "Weather data unavailable") ∈ table ∧
      ("End Weather", "Weather data unavailable") ∈ table) :=
  ⟨rfl, rfl,
   get_weather_network_failure_sentinel "London" "Paris" "1" "km"
     (HttpResult.ok { hits := some [{ point := some { lat := some 51, lng := some 2 } }] })
     (HttpResult.ok { hits := some [{ point := some { lat := some 51, lng := some 2 } }] })
     (51, 2) (51, 2) rfl rfl
     (HttpResult.ok { paths := some [{ distance := some 10000, time := some 600000, points := some { coordinates := some [(0, 0)] }, instructions := some [] }] })
     { distance := 10000, time := 600000, points := [(0, 0)],
       instructions := [] }
     rfl⟩

/-- C3: in both orchestrators, if either geocode call returns `None`, the
trace of HTTP calls contains only the two geocode calls — no weather and
no routing call — and no summary table is produced. -/
theorem geocode_none_blocks_downstream
    (geoS geoE : HttpResult GeocodeResponse)
    (h : geocode_location geoS = Except.ok none ∨
         geocode_location geoE = Except.ok none)
    (start endLoc vc unitRaw : String)
    (weatherS weatherE : HttpResult Weather.WeatherResponse)
    (routeB : HttpResult RouteResponse)
    (routeF : HttpResult RouteResponseFull) :
    (∀ c ∈ (App.main start endLoc unitRaw geoS geoE routeB).1,
        c = Call.geocode) ∧
    (∀ table, (App.main start endLoc unitRaw geoS geoE routeB).2
        ≠ Except.ok (RunResult.done table)) ∧
    (∀ c ∈ (Weather.main start endLoc vc unitRaw geoS geoE
        weatherS weatherE routeF).1, c = Call.geocode) ∧
    (∀ table, (Weather.main start endLoc vc unitRaw geoS geoE
        weatherS weatherE routeF).2 ≠ Except.ok (RunResult.done table)) := by
  cases hS : geocode_location geoS with
  | error e =>
    simp [App.main, Weather.main, hS]
  | ok sc =>
    cases hE : geocode_location geoE with
    | error e =>
      simp [App.main, Weather.main, hS, hE]
    | ok ec =>
      have hne : sc = none ∨ ec = none := by
        rcases h with h | h
        · rw [hS] at h
          exact Or.inl (by injection h)
        · rw [hE] at h
          exact Or.inr (by injection h)
      rcases sc with _ | s
      · simp [App.main, Weather.main, hS, hE]
      · rcases ec with _ | e'
        · simp [App.main, Weather.main, hS, hE]
        · rcases hne with hne | hne <;> exact absurd hne (by simp)

/-- Witness for C3 with a zero-hits start geocode and a successful end
geocode. -/
theorem geocode_none_blocks_downstream_w :
    (geocode_location (HttpResult.ok ({ hits := some [] } : GeocodeResponse))
       = Except.ok none ∨
     geocode_location (HttpResult.ok { hits := some [{ point := some { lat := some 51, lng := some 2 } }] })
       = Except.ok none) ∧
    ((∀ c ∈ (App.main "A" "B" "km"
        (HttpResult.ok ({ hits := some [] } : GeocodeResponse))
        (HttpResult.ok { hits := some [{ point := some { lat := some 51, lng := some 2 } }] })
        HttpResult.requestException).1, c = Call.geocode) ∧
    (∀ table, (App.main "A" "B" "km"
        (HttpResult.ok ({ hits := some [] } : GeocodeResponse))
        (HttpResult.ok { hits := some [{ point := some { lat := some 51, lng := some 2 } }] })
        HttpResult.requestException).2
        ≠ Except.ok (RunResult.done table)) ∧
    (∀ c ∈ (Weather.main "A" "B" "1" "km"
        (HttpResult.ok ({ hits := some [] } : GeocodeResponse))
        (HttpResult.ok { hits := some [{ point := some { lat := some 51, lng := some 2 } }] })
        HttpResult.requestException HttpResult.requestException
        HttpResult.requestException).1, c = Call.geocode) ∧
    (∀ table, (Weather.main "A" "B" "1" "km"
        (HttpResult.ok ({ hits := some [] } : GeocodeResponse))
        (HttpResult.ok { hits := some [{ point := some { lat := some 51, lng := some 2 } }] })
        HttpResult.requestException HttpResult.requestException
        HttpResult.requestException).2
        ≠ Except.ok (RunResult.done table))) :=
  ⟨Or.inl rfl,
   geocode_none_blocks_downstream
     (HttpResult.ok ({ hits := some [] } : GeocodeResponse))
     (HttpResult.ok { hits := some [{ point := some { lat := some 51, lng := some 2 } }] })
     (Or.inl rfl) "A" "B" "1" "km"
     HttpResult.requestException HttpResult.requestException
     HttpResult.requestException HttpResult.requestException⟩

/-- C7 counterexample: with the unsupported travel-mode choice `"9"` the
weather-variant orchestrator does not fail: it silently coerces the mode
to `"car"` and calls the routing service with it. -/
theorem unsupported_mode_coerced_cx :
    (Weather.main "A" "B" "9" "km"
        (HttpResult.ok { hits := some [{ point := some { lat := some 51, lng := some 2 } }] })
        (HttpResult.ok { hits := some [{ point := some { lat := some 52, lng := some 3 } }] })
        HttpResult.requestException HttpResult.requestException
        (HttpResult.ok { paths := some [{ distance := some 10000, time := some 600000, points := some { coordinates := some [(0, 0)] }, instructions := some [] }] })).1
      = [Call.geocode, Call.geocode, Call.weather, Call.weather,
         Call.route "car"] :=
  rfl

/-- C7 amended: a stripped vehicle choice outside `{"1", "2", "3"}` is
silently mapped to the default `"car"` by `vehicle_map.get`, and — when
geocoding and the weather lookups return normally — the routing service is
then called with `"car"`; no error is raised. -/
theorem unsupported_mode_defaults_to_car
    (vc : String) (h1 : vc ≠ "1") (h2 : vc ≠ "2") (h3 : vc ≠ "3")
    (start endLoc unitRaw : String)
    (geoS geoE : HttpResult GeocodeResponse) (sc ec : ℚ × ℚ)
    (hS : geocode_location geoS = Except.ok (some sc))
    (hE : geocode_location geoE = Except.ok (some ec))
    (weatherS weatherE : HttpResult Weather.WeatherResponse) (sw ew : String)
    (hwS : Weather.get_weather weatherS = Except.ok sw)
    (hwE : Weather.get_weather weatherE = Except.ok ew)
    (routeF : HttpResult RouteResponseFull) :
    Weather.vehicle_map_get vc = "car" ∧
    Call.route "car" ∈ (Weather.main start endLoc vc unitRaw geoS geoE
        weatherS weatherE routeF).1 := by
  have hv : Weather.vehicle_map_get vc = "car" := by
    simp [Weather.vehicle_map_get, h1, h2, h3]
  refine ⟨hv, ?_⟩
  cases hR : Weather.get_route routeF with
  | error e =>
    simp [Weather.main, hS, hE, hwS, hwE, hR, hv]
  | ok o =>
    cases o with
    | none => simp [Weather.main, hS, hE, hwS, hwE, hR, hv]
    | some r => simp [Weather.main, hS, hE, hwS, hwE, hR, hv]

/-- Witness for C7 at the concrete choice `"9"` with concrete oracle
responses. -/
theorem unsupported_mode_defaults_to_car_w :
    ("9" : String) ≠ "1" ∧ ("9" : String) ≠ "2" ∧ ("9" : String) ≠ "3" ∧
    geocode_location (HttpResult.ok { hits := some [{ point := some { lat := some 51, lng := some 2 } }] })
      = Except.ok (some (51, 2)) ∧
    Weather.get_weather
        (HttpResult.requestException : HttpResult Weather.WeatherResponse)
      = Except.ok "Weather data unavailable" ∧
    (Weather.vehicle_map_get "9" = "car" ∧
     Call.route "car" ∈ (Weather.main "A" "B" "9" "km"
        (HttpResult.ok { hits := some [{ point := some { lat := some 51, lng := some 2 } }] })
        (HttpResult.ok { hits := some [{ point := some { lat := some 51, lng := some 2 } }] })
        HttpResult.requestException HttpResult.requestException
        (HttpResult.requestException : HttpResult RouteResponseFull)).1) :=
  ⟨by decide, by decide, by decide, rfl, rfl,
   unsupported_mode_defaults_to_car "9" (by decide) (by decide) (by decide)
     "A" "B" "km"
     (HttpResult.ok { hits := some [{ point := some { lat := some 51, lng := some 2 } }] })
     (HttpResult.ok { hits := some [{ point := some { lat := some 51, lng := some 2 } }] })
     (51, 2) (51, 2) rfl rfl
     HttpResult.requestException HttpResult.requestException
     "Weather data unavailable" "Weather data unavailable" rfl rfl
     (HttpResult.requestException : HttpResult RouteResponseFull)⟩

end GraphHopper
